import Mathlib

/-!
Verification development for the radio-cli playback/visualization engine.

The definitions below are a shallow embedding of `src/audio/mod.rs` and
`src/audio/sound_effects.rs`:

* the metadata extraction performed by the reader thread inside
  `Player::play_station` is modelled as a pure function on `List Char`
  (Rust byte strings with ASCII markers);
* `AudioState` and `AudioState::update_visualization` are modelled with
  exact rational arithmetic, with every `rand::Rng` draw supplied
  explicitly through a `StepDraw` oracle, so a step is a deterministic
  function of the state and the drawn values;
* process management (`Player::play_station`, `Player::stop`,
  `Player::toggle_mute`) is modelled as a state transition that also
  emits the ordered list of process events (kill/spawn) it performs,
  with the outcome of `Command::spawn` passed in as an `Except` value;
* `SoundEffectManager` is modelled with sink identifiers and an ordered
  event trace (sink creation, playback start, reference drop, stop).
-/

namespace Radio

/-- Rust `str::find` on the byte string `s`: index of the first occurrence
of `pat`, `none` when `pat` does not occur.  Characters stand for bytes;
every pattern used by the metadata reader is ASCII. -/
def rustFind (pat : List Char) : List Char → Option Nat
  | [] => if pat = [] then some 0 else none
  | c :: rest =>
      if pat.isPrefixOf (c :: rest) then some 0
      else (rustFind pat rest).map (· + 1)

/-- Rust `str::trim_start`. -/
def rustTrimStart (s : List Char) : List Char := s.dropWhile Char.isWhitespace

/-- Rust `str::trim_end`. -/
def rustTrimEnd (s : List Char) : List Char :=
  (s.reverse.dropWhile Char.isWhitespace).reverse

/-- Rust `str::trim`. -/
def rustTrim (s : List Char) : List Char := rustTrimEnd (rustTrimStart s)

/-- The three fields the metadata reader thread extracts from one status
line (`src/audio/mod.rs`, lines 322-359). -/
structure ParsedFields where
  format : List Char
  bitrate : List Char
  song : Option (List Char)
  deriving DecidableEq, Repr

/-- The literal pattern `"FORMAT:"`. -/
def fmtMarker : List Char := "FORMAT:".toList

/-- The literal pattern `"BITRATE:"`. -/
def brtMarker : List Char := "BITRATE:".toList

/-- The metadata extraction performed by the reader thread in
`Player::play_station` on `line_str` (the line after
`trim_start_matches("STATUS: ")`):

* `format`: when `"FORMAT:"` occurs, the trimmed slice from just after it
  up to the next `"BITRATE:"` occurrence (or end of line), else
  `"Unknown"`;
* `bitrate`: when `"BITRATE:"` occurs and the trimmed remainder of the
  line is non-empty, that remainder suffixed `" kbps"`, else `"Unknown"`;
* `song`: the trimmed slice before the first marker, `none` when empty. -/
def parseStatusFields (lineStr : List Char) : ParsedFields :=
  let format :=
    match rustFind fmtMarker lineStr with
    | some formatIdx =>
        let formatStart := formatIdx + fmtMarker.length
        let formatEnd :=
          match rustFind brtMarker (lineStr.drop formatStart) with
          | some pos => formatStart + pos
          | none => lineStr.length
        rustTrim ((lineStr.take formatEnd).drop formatStart)
    | none => "Unknown".toList
  let bitrate :=
    match rustFind brtMarker lineStr with
    | some bitrateIdx =>
        let bitrateValue := rustTrim (lineStr.drop (bitrateIdx + brtMarker.length))
        if bitrateValue.isEmpty then "Unknown".toList
        else bitrateValue ++ " kbps".toList
    | none => "Unknown".toList
  let firstKeyword :=
    min ((rustFind fmtMarker lineStr).getD lineStr.length)
        ((rustFind brtMarker lineStr).getD lineStr.length)
  let potentialSong := rustTrim (lineStr.take firstKeyword)
  let song := if potentialSong.isEmpty then none else some potentialSong
  ⟨format, bitrate, song⟩

/-- One particle of the starfield (`Star` in `src/audio/mod.rs`).
Floating-point fields are modelled with exact rationals. -/
structure Star where
  x : ℚ
  y : ℚ
  z : ℚ
  brightness : ℚ
  speed : ℚ
  color : Nat
  deriving DecidableEq, Repr

/-- `StreamInfo` from `src/audio/mod.rs`, with Rust strings as `List Char`. -/
structure StreamInfo where
  bitrate : List Char
  format : List Char
  station_name : List Char
  current_song : Option (List Char)
  deriving DecidableEq, Repr

/-- `AudioState` from `src/audio/mod.rs`.  `volume` is a `u8` in the
source; it is modelled as a `Nat` and the `saturating_add`/
`saturating_sub` operations keep the `u8` saturation bounds explicit. -/
structure AudioState where
  stars : List Star
  bass_impact : ℚ
  is_playing : Bool
  is_muted : Bool
  volume : Nat
  stream_info : Option StreamInfo
  frame_count : Nat
  warp_speed : ℚ
  deriving DecidableEq, Repr

/-- The random values drawn for one star: position, depth, brightness,
speed, the 30%-recolor coin and the colour index. -/
structure StarDraw where
  x : ℚ
  y : ℚ
  z : ℚ
  brightness : ℚ
  speed : ℚ
  recolor : Bool
  color : Nat
  deriving Repr

/-- All random values one call of `update_visualization` may consume,
supplied explicitly: the 5% bass-drop coin, the two possible bass
targets, one `StarDraw` per star index, the 5% add-star coin and its
draws, and the 1% remove-star coin. -/
structure StepDraw where
  bassDrop : Bool
  dropTarget : ℚ
  calmTarget : ℚ
  starDraw : Nat → StarDraw
  addStar : Bool
  newStarDraw : StarDraw
  removeStar : Bool

/-- A star built from one draw (used by `AudioState::new`). -/
def mkInitStar (d : StarDraw) : Star :=
  { x := d.x, y := d.y, z := d.z, brightness := d.brightness,
    speed := d.speed, color := d.color }

/-- `AudioState::new`: 200 randomly drawn stars, volume 50, not playing,
not muted, no stream info, `bass_impact = 0`, `warp_speed = 1`. -/
def AudioState.new (draw : Nat → StarDraw) : AudioState :=
  { stars := (List.range 200).map (fun i => mkInitStar (draw i)),
    bass_impact := 0,
    is_playing := false,
    is_muted := false,
    volume := 50,
    stream_info := none,
    frame_count := 0,
    warp_speed := 1 }

/-- The per-star body of the playing branch of `update_visualization`:
advance `z` by `speed * warp`; past `1.0` the star recycles to fresh
random `x`,`y`, depth `0.01`, fresh brightness and speed, and a new
colour with probability 30%. -/
def advance_star_playing (warp : ℚ) (d : StarDraw) (st : Star) : Star :=
  let z := st.z + st.speed * warp
  if z > 1 then
    { x := d.x, y := d.y, z := 1/100, brightness := d.brightness,
      speed := d.speed, color := if d.recolor then d.color else st.color }
  else
    { st with z := z }

/-- The per-star body of the paused branch: advance at one fifth rate;
past `1.0` only `x`,`y` are redrawn and `z` resets to `0.01`. -/
def advance_star_paused (warp : ℚ) (d : StarDraw) (st : Star) : Star :=
  let z := st.z + st.speed * warp * (1/5)
  if z > 1 then
    { st with x := d.x, y := d.y, z := 1/100 }
  else
    { st with z := z }

/-- The `for star in &mut self.stars` loop: apply `upd` to each star with
the draw for its index. -/
def updateStarsFrom (upd : StarDraw → Star → Star) (draw : Nat → StarDraw) :
    Nat → List Star → List Star
  | _, [] => []
  | i, st :: rest => upd (draw i) st :: updateStarsFrom upd draw (i + 1) rest

/-- The star occasionally appended while playing (depth starts at 0.01). -/
def mkNewStar (d : StarDraw) : Star :=
  { x := d.x, y := d.y, z := 1/100, brightness := d.brightness,
    speed := d.speed, color := d.color }

/-- `AudioState::update_visualization` with the draws passed explicitly.
Playing: smooth `bass_impact` toward the drawn target
(`0.9·old + 0.1·target`), set `warp_speed = 1 + 2·bass_impact`, advance
every star, and with the add-star coin append a fresh star when below the
250 cap.  Paused: relax `warp_speed` toward 0.5 by factor 0.95, decay
`bass_impact` by 0.95, advance stars at one fifth rate, and with the
remove-star coin pop the last star when above the 50 floor. -/
def update_visualization (d : StepDraw) (s : AudioState) : AudioState :=
  let s := { s with frame_count := s.frame_count + 1 }
  if s.is_playing then
    let bassTarget := if d.bassDrop then d.dropTarget else d.calmTarget
    let bass := s.bass_impact * (9/10) + bassTarget * (1/10)
    let warp := 1 + bass * 2
    let stars := updateStarsFrom (advance_star_playing warp) d.starDraw 0 s.stars
    let stars :=
      if d.addStar ∧ stars.length < 250 then stars ++ [mkNewStar d.newStarDraw]
      else stars
    { s with bass_impact := bass, warp_speed := warp, stars := stars }
  else
    let warp := (s.warp_speed - 1/2) * (19/20) + 1/2
    let bass := s.bass_impact * (19/20)
    let stars := updateStarsFrom (advance_star_paused warp) d.starDraw 0 s.stars
    let stars :=
      if d.removeStar ∧ stars.length > 50 then stars.dropLast
      else stars
    { s with bass_impact := bass, warp_speed := warp, stars := stars }

/-- `AudioVisualizer::set_playing` (successful lock): set the flag and
clear `stream_info` when stopping. -/
def set_playing (playing : Bool) (s : AudioState) : AudioState :=
  { s with is_playing := playing,
           stream_info := if playing then s.stream_info else none }

/-- `AudioVisualizer::set_muted` (successful lock). -/
def set_muted (muted : Bool) (s : AudioState) : AudioState :=
  { s with is_muted := muted }

/-- `AudioVisualizer::increase_volume`: below 100, `saturating_add 5`. -/
def increase_volume (s : AudioState) : AudioState :=
  if s.volume < 100 then { s with volume := min (s.volume + 5) 255 } else s

/-- `AudioVisualizer::decrease_volume`: above 0, `saturating_sub 5`
(truncated `Nat` subtraction is exactly `u8` saturating subtraction). -/
def decrease_volume (s : AudioState) : AudioState :=
  if s.volume > 0 then { s with volume := s.volume - 5 } else s

/-- `AudioVisualizer::set_stream_info`: overwrite with a fresh record,
no current song. -/
def set_stream_info (station_name bitrate format : List Char)
    (s : AudioState) : AudioState :=
  let info : StreamInfo :=
    { bitrate := bitrate, format := format, station_name := station_name,
      current_song := none }
  { s with stream_info := some info }

/-- A process-lifecycle event performed by the `Player` (process handles
are modelled by identifiers). -/
inductive ProcEvent
  | kill (pid : Nat)
  | spawn (pid : Nat)
  deriving DecidableEq, Repr

/-- `Player` from `src/audio/mod.rs`: the optional `Child` handle and the
player-side mute flag. -/
structure Player where
  current_player : Option Nat
  is_muted : Bool
  deriving DecidableEq, Repr

/-- `Player::new`. -/
def Player.new : Player := { current_player := none, is_muted := false }

/-- `Player::stop` (non-`skip_mpv` path): take and kill the current
process, if any, and reset the mute flag.  Also returns the ordered
process events it performs. -/
def Player.stop (p : Player) : Player × List ProcEvent :=
  ({ current_player := none, is_muted := false },
   match p.current_player with
   | some pid => [ProcEvent.kill pid]
   | none => [])

/-- `Player::play_station` (non-`skip_mpv` path).  The outcome of
`Command::spawn` is passed in as `spawnResult` (`ok pid`, or the spawn
error text).  First `self.stop()` kills any current process; then, on a
successful spawn, `stream_info` is set to the "Detecting..." placeholders,
`set_playing true` runs, and the new child is stored; on a failed spawn,
`stream_info` is set to bitrate `"Error"` / format `"Failed to start: e"`
and the error is returned.  The returned event list is the ordered
process events (the kill performed by `stop` precedes the spawn).  The
metadata reader thread spawned in the `Ok` branch only mutates
`stream_info` later, through `parseStatusFields`; it is modelled
separately. -/
def Player.play_station (p : Player) (station_name : List Char)
    (spawnResult : Except (List Char) Nat) (a : AudioState) :
    Player × AudioState × List ProcEvent × Except (List Char) Unit :=
  let stopped := p.stop
  let p1 := stopped.1
  let ev1 := stopped.2
  match spawnResult with
  | .ok pid =>
      let a1 := set_stream_info station_name
        "Detecting...".toList "Detecting...".toList a
      let a2 := set_playing true a1
      ({ p1 with current_player := some pid }, a2,
       ev1 ++ [ProcEvent.spawn pid], .ok ())
  | .error e =>
      let a1 := set_stream_info station_name
        "Error".toList ("Failed to start: ".toList ++ e) a
      (p1, a1, ev1, .error e)

/-- `Player::toggle_mute`: flip the player mute flag, propagate it into
the visualizer state, and only then branch on whether a process is
running (every platform branch of the running case returns `Ok`). -/
def Player.toggle_mute (p : Player) (a : AudioState) :
    Player × AudioState × Except (List Char) Unit :=
  let p1 := { p with is_muted := !p.is_muted }
  let a1 := set_muted p1.is_muted a
  match p1.current_player with
  | some _ => (p1, a1, .ok ())
  | none => (p1, a1, .error "No player is currently running".toList)

/-- An event on the tuning-effect sinks (sinks are modelled by
identifiers): creation, playback start (`append`), dropping the stored
reference, and an explicit `Sink::stop`. -/
inductive SinkEvent
  | create (id : Nat)
  | play (id : Nat)
  | dropRef (id : Nat)
  | stop (id : Nat)
  deriving DecidableEq, Repr

/-- `SoundEffectManager` from `src/audio/sound_effects.rs`:
`tuning_sink` is the held sink reference, `audio_available` models
whether `OutputStream::try_default` succeeded, and `next_sink` allocates
fresh sink identifiers. -/
structure SoundEffectManager where
  tuning_sink : Option Nat
  audio_available : Bool
  next_sink : Nat
  deriving DecidableEq, Repr

/-- `SoundEffectManager::play_tuning_sound`.  Without an output handle it
errors and leaves the state alone.  Otherwise a fresh sink is created and
the clip starts playing on it, and only then is the stored `tuning_sink`
reference replaced, dropping the old reference; the prior sink is never
sent a `stop` by this function. -/
def SoundEffectManager.play_tuning_sound (m : SoundEffectManager) :
    SoundEffectManager × List SinkEvent × Except (List Char) Unit :=
  if m.audio_available then
    let n := m.next_sink
    let evs := [SinkEvent.create n, SinkEvent.play n] ++
      (match m.tuning_sink with
       | some s => [SinkEvent.dropRef s]
       | none => [])
    ({ m with tuning_sink := some n, next_sink := n + 1 }, evs, .ok ())
  else
    (m, [], .error "Audio output not available".toList)

/-- `SoundEffectManager::stop_tuning_sound`: explicitly stop the held
sink (if any) and drop the reference. -/
def SoundEffectManager.stop_tuning_sound (m : SoundEffectManager) :
    SoundEffectManager × List SinkEvent :=
  match m.tuning_sink with
  | some s =>
      ({ m with tuning_sink := none }, [SinkEvent.stop s, SinkEvent.dropRef s])
  | none => ({ m with tuning_sink := none }, [])

/-- One main-loop tick for reachability arguments: the loop may set
`is_playing` through `AudioVisualizer::set_playing` before
`update_visualization` runs. -/
structure TickInput where
  playing : Bool
  draw : StepDraw

/-- Run a sequence of ticks from a state. -/
def runTicks (l : List TickInput) (s : AudioState) : AudioState :=
  l.foldl (fun s t => update_visualization t.draw (set_playing t.playing s)) s

/-- `N` successive `increase_volume` calls. -/
def iterUp : Nat → AudioState → AudioState
  | 0, s => s
  | n + 1, s => iterUp n (increase_volume s)

/-- `N` successive `decrease_volume` calls. -/
def iterDown : Nat → AudioState → AudioState
  | 0, s => s
  | n + 1, s => iterDown n (decrease_volume s)

/-- A volume key press. -/
inductive VolOp
  | up
  | down
  deriving DecidableEq, Repr

/-- Apply a sequence of volume key presses. -/
def applyVolOps (l : List VolOp) (s : AudioState) : AudioState :=
  l.foldl
    (fun s o =>
      match o with
      | VolOp.up => increase_volume s
      | VolOp.down => decrease_volume s) s

/-- Run a sequence of `update_visualization` steps (no flag changes in
between), as in sustained pause. -/
def runIdle (ds : List StepDraw) (s : AudioState) : AudioState :=
  ds.foldl (fun s d => update_visualization d s) s

/-- A fixed star draw used to instantiate oracles in concrete runs. -/
def dummyDraw : StarDraw :=
  { x := 0, y := 0, z := 1/2, brightness := 1/2, speed := 1/100,
    recolor := false, color := 0 }

/-- A fixed step draw used to instantiate oracles in concrete runs. -/
def dummyStep : StepDraw :=
  { bassDrop := false, dropTarget := 9/10, calmTarget := 2/5,
    starDraw := fun _ => dummyDraw, addStar := false,
    newStarDraw := dummyDraw, removeStar := false }

/-- A concrete fresh state, used to instantiate theorems. -/
def initState : AudioState := AudioState.new (fun _ => dummyDraw)

/-- A concrete playing state with a single star about to cross depth 1,
used to instantiate theorems. -/
def demoPlayingState : AudioState :=
  { stars := [{ x := 0, y := 0, z := 99/100, brightness := 1/2,
                speed := 1/100, color := 0 }],
    bass_impact := 0, is_playing := true, is_muted := false, volume := 50,
    stream_info := none, frame_count := 0, warp_speed := 1 }

lemma iterUp_volume : ∀ (N : Nat) (s : AudioState), 5 ∣ s.volume → s.volume ≤ 100 →
    (iterUp N s).volume = min 100 (s.volume + 5 * N) := by
  intro N
  induction N with
  | zero => intro s h5 h100; simp [iterUp]; omega
  | succ n ih =>
    intro s h5 h100
    rw [iterUp]
    by_cases h : s.volume < 100
    · have hv : (increase_volume s).volume = s.volume + 5 := by
        simp [increase_volume, h]; omega
      have h5' : 5 ∣ (increase_volume s).volume := by rw [hv]; omega
      have h100' : (increase_volume s).volume ≤ 100 := by rw [hv]; omega
      rw [ih _ h5' h100', hv]
      omega
    · have hv : (increase_volume s).volume = s.volume := by simp [increase_volume, h]
      have h5' : 5 ∣ (increase_volume s).volume := by rw [hv]; exact h5
      have h100' : (increase_volume s).volume ≤ 100 := by rw [hv]; exact h100
      rw [ih _ h5' h100', hv]
      omega

lemma iterDown_volume : ∀ (N : Nat) (s : AudioState), 5 ∣ s.volume →
    (iterDown N s).volume = s.volume - 5 * N := by
  intro N
  induction N with
  | zero => intro s h5; simp [iterDown]
  | succ n ih =>
    intro s h5
    rw [iterDown]
    by_cases h : s.volume > 0
    · have hv : (decrease_volume s).volume = s.volume - 5 := by
        simp [decrease_volume, h]
      have h5' : 5 ∣ (decrease_volume s).volume := by rw [hv]; omega
      rw [ih _ h5', hv]
      omega
    · have hv : (decrease_volume s).volume = s.volume := by simp [decrease_volume, h]
      have h5' : 5 ∣ (decrease_volume s).volume := by rw [hv]; exact h5
      rw [ih _ h5', hv]
      omega

lemma applyVolOps_invariant : ∀ (l : List VolOp) (s : AudioState),
    5 ∣ s.volume → s.volume ≤ 100 →
    5 ∣ (applyVolOps l s).volume ∧ (applyVolOps l s).volume ≤ 100 := by
  intro l
  induction l with
  | nil => intro s h5 h100; simpa [applyVolOps] using ⟨h5, h100⟩
  | cons o rest ih =>
    intro s h5 h100
    have step : applyVolOps (o :: rest) s =
        applyVolOps rest
          (match o with
           | VolOp.up => increase_volume s
           | VolOp.down => decrease_volume s) := by
      simp [applyVolOps]
    rw [step]
    cases o with
    | up =>
      by_cases h : s.volume < 100
      · have hv : (increase_volume s).volume = s.volume + 5 := by
          simp [increase_volume, h]; omega
        exact ih _ (by rw [hv]; omega) (by rw [hv]; omega)
      · have hv : (increase_volume s).volume = s.volume := by simp [increase_volume, h]
        exact ih _ (by rw [hv]; exact h5) (by rw [hv]; exact h100)
    | down =>
      by_cases h : s.volume > 0
      · have hv : (decrease_volume s).volume = s.volume - 5 := by
          simp [decrease_volume, h]
        exact ih _ (by rw [hv]; omega) (by rw [hv]; omega)
      · have hv : (decrease_volume s).volume = s.volume := by simp [decrease_volume, h]
        exact ih _ (by rw [hv]; exact h5) (by rw [hv]; exact h100)

/-- Claim C6: from volume 50, `N` `increase_volume` calls give
`min 100 (50+5N)`, `N` `decrease_volume` calls give `max 0 (50−5N)`, and
any sequence of volume operations keeps the volume in `[0, 100]`. -/
theorem c6_volume_bounds (s : AudioState) (h : s.volume = 50)
    (N : Nat) (ops : List VolOp) :
    (iterUp N s).volume = min 100 (50 + 5 * N) ∧
    ((iterDown N s).volume : ℤ) = max 0 (50 - 5 * (N : ℤ)) ∧
    0 ≤ (applyVolOps ops s).volume ∧ (applyVolOps ops s).volume ≤ 100 := by
  refine ⟨?_, ?_, Nat.zero_le _, ?_⟩
  · rw [iterUp_volume N s (by omega) (by omega), h]
  · rw [iterDown_volume N s (by omega), h]
    omega
  · exact (applyVolOps_invariant ops s (by omega) (by omega)).2

/-- Witness for C6 at a concrete state and concrete operation counts. -/
theorem c6_witness :
    (AudioState.new (fun _ => dummyDraw)).volume = 50 ∧
    ((iterUp 13 (AudioState.new (fun _ => dummyDraw))).volume =
        min 100 (50 + 5 * 13) ∧
      ((iterDown 13 (AudioState.new (fun _ => dummyDraw))).volume : ℤ) =
        max 0 (50 - 5 * (13 : ℤ)) ∧
      0 ≤ (applyVolOps [VolOp.up, VolOp.down]
            (AudioState.new (fun _ => dummyDraw))).volume ∧
      (applyVolOps [VolOp.up, VolOp.down]
            (AudioState.new (fun _ => dummyDraw))).volume ≤ 100) :=
  ⟨rfl, c6_volume_bounds _ rfl 13 [VolOp.up, VolOp.down]⟩

/-- Claim C4: when `Command::spawn` fails, `play_station` returns the
error to the caller, sets `stream_info` to the error record (bitrate
field `"Error"`, format field `"Failed to start: <e>"`), and leaves
`is_playing` exactly as it was before the call. -/
theorem c4_spawn_failure (p : Player) (name e : List Char) (a : AudioState) :
    (p.play_station name (Except.error e) a).2.2.2 = Except.error e ∧
    (p.play_station name (Except.error e) a).2.1.stream_info = some
      { bitrate := "Error".toList,
        format := "Failed to start: ".toList ++ e,
        station_name := name, current_song := none } ∧
    (p.play_station name (Except.error e) a).2.1.is_playing = a.is_playing := by
  refine ⟨rfl, ?_, ?_⟩ <;> simp [Player.play_station, Player.stop, set_stream_info]

/-- Claim C10: `toggle_mute` with no running process returns an error,
yet both the player mute flag and the visualizer `is_muted` flag have
already been flipped when it returns. -/
theorem c10_toggle_mute_error_mutates (p : Player) (a : AudioState)
    (h : p.current_player = none) :
    (p.toggle_mute a).2.2 =
      Except.error "No player is currently running".toList ∧
    (p.toggle_mute a).1.is_muted = !p.is_muted ∧
    (p.toggle_mute a).2.1.is_muted = !p.is_muted := by
  refine ⟨?_, ?_, ?_⟩ <;> simp [Player.toggle_mute, set_muted, h]

/-- Witness for C10 at the freshly constructed player. -/
theorem c10_witness :
    Player.new.current_player = none ∧
    ((Player.new.toggle_mute (AudioState.new (fun _ => dummyDraw))).2.2 =
        Except.error "No player is currently running".toList ∧
      (Player.new.toggle_mute (AudioState.new (fun _ => dummyDraw))).1.is_muted =
        !Player.new.is_muted ∧
      (Player.new.toggle_mute
          (AudioState.new (fun _ => dummyDraw))).2.1.is_muted =
        !Player.new.is_muted) :=
  ⟨rfl, c10_toggle_mute_error_mutates Player.new _ rfl⟩


/-- Claim C5: on a status line with neither marker the parser returns the
whole trimmed line as the song (`none` when it trims to empty) and
`"Unknown"` for both format and bitrate; and whenever `"BITRATE:"` occurs
and the trimmed remainder after it is non-empty, the bitrate field is that
value suffixed `" kbps"`. -/
theorem c5_parser_defaults :
    (∀ lineStr : List Char,
      rustFind fmtMarker lineStr = none →
      rustFind brtMarker lineStr = none →
      parseStatusFields lineStr =
        ⟨"Unknown".toList, "Unknown".toList,
         if (rustTrim lineStr).isEmpty then none else some (rustTrim lineStr)⟩) ∧
    (∀ (lineStr : List Char) (i : Nat),
      rustFind brtMarker lineStr = some i →
      (rustTrim (lineStr.drop (i + brtMarker.length))).isEmpty = false →
      (parseStatusFields lineStr).bitrate =
        rustTrim (lineStr.drop (i + brtMarker.length)) ++ " kbps".toList) := by
  constructor
  · intro l h1 h2
    simp [parseStatusFields, h1, h2]
  · intro l i h hne
    simp [parseStatusFields, h, hne]

/-- Witness for C5: a marker-free line and a line with a bitrate value. -/
theorem c5_witness :
    (rustFind fmtMarker "Just a song".toList = none ∧
      rustFind brtMarker "Just a song".toList = none ∧
      parseStatusFields "Just a song".toList =
        ⟨"Unknown".toList, "Unknown".toList,
         if (rustTrim "Just a song".toList).isEmpty then none
         else some (rustTrim "Just a song".toList)⟩) ∧
    (rustFind brtMarker "x BITRATE: 128".toList = some 2 ∧
      (rustTrim ("x BITRATE: 128".toList.drop (2 + brtMarker.length))).isEmpty
        = false ∧
      (parseStatusFields "x BITRATE: 128".toList).bitrate =
        rustTrim ("x BITRATE: 128".toList.drop (2 + brtMarker.length)) ++
          " kbps".toList) :=
  ⟨⟨by decide, by decide,
    c5_parser_defaults.1 "Just a song".toList (by decide) (by decide)⟩,
   ⟨by decide, by decide,
    c5_parser_defaults.2 "x BITRATE: 128".toList 2 (by decide) (by decide)⟩⟩

/-- Counterexample for C3 as stated: with the markers swapped the song and
format agree but the bitrate differs, because the bitrate value always
extends to the end of the line. -/
theorem c3_counterexample :
    parseStatusFields "Song Name FORMAT: aac BITRATE: 128".toList ≠
      parseStatusFields "Song Name BITRATE: 128 FORMAT: aac".toList := by
  decide


lemma format_of_parse_some (line : List Char) (i j : Nat)
    (h1 : rustFind fmtMarker line = some i)
    (h2 : rustFind brtMarker (line.drop (i + fmtMarker.length)) = some j) :
    (parseStatusFields line).format =
      rustTrim ((line.take (i + fmtMarker.length + j)).drop
        (i + fmtMarker.length)) := by
  simp [parseStatusFields, h1, h2]

lemma format_of_parse_noneB (line : List Char) (i : Nat)
    (h1 : rustFind fmtMarker line = some i)
    (h2 : rustFind brtMarker (line.drop (i + fmtMarker.length)) = none) :
    (parseStatusFields line).format =
      rustTrim (line.drop (i + fmtMarker.length)) := by
  simp [parseStatusFields, h1, h2]

lemma song_of_parse (line : List Char) (i j : Nat)
    (h1 : rustFind fmtMarker line = some i)
    (h2 : rustFind brtMarker line = some j) :
    (parseStatusFields line).song =
      (if (rustTrim (line.take (min i j))).isEmpty then none
       else some (rustTrim (line.take (min i j)))) := by
  simp [parseStatusFields, h1, h2]

/-- Claim C3 amended: when the two marker sections are swapped, the parsed
format and song agree; the bitrate field is the one order-dependent field
(it always extends to the end of the line).  The hypotheses state that
each marker occurs first at its intended position in each line. -/
theorem c3_swapped_markers_format_song (s f b : List Char)
    (hA1 : rustFind fmtMarker (s ++ fmtMarker ++ f ++ brtMarker ++ b) =
      some s.length)
    (hA2 : rustFind brtMarker (s ++ fmtMarker ++ f ++ brtMarker ++ b) =
      some (s.length + fmtMarker.length + f.length))
    (hA3 : rustFind brtMarker (f ++ brtMarker ++ b) = some f.length)
    (hB1 : rustFind fmtMarker (s ++ brtMarker ++ b ++ fmtMarker ++ f) =
      some (s.length + brtMarker.length + b.length))
    (hB2 : rustFind brtMarker (s ++ brtMarker ++ b ++ fmtMarker ++ f) =
      some s.length)
    (hB3 : rustFind brtMarker f = none) :
    (parseStatusFields (s ++ fmtMarker ++ f ++ brtMarker ++ b)).format =
      (parseStatusFields (s ++ brtMarker ++ b ++ fmtMarker ++ f)).format ∧
    (parseStatusFields (s ++ fmtMarker ++ f ++ brtMarker ++ b)).song =
      (parseStatusFields (s ++ brtMarker ++ b ++ fmtMarker ++ f)).song := by
  have dropA : (s ++ fmtMarker ++ f ++ brtMarker ++ b).drop
      (s.length + fmtMarker.length) = f ++ brtMarker ++ b := by
    have e : s ++ fmtMarker ++ f ++ brtMarker ++ b =
        (s ++ fmtMarker) ++ (f ++ brtMarker ++ b) := by
      simp [List.append_assoc]
    rw [e]
    exact List.drop_left' (by simp [List.length_append, Nat.add_assoc])
  have takeA : (s ++ fmtMarker ++ f ++ brtMarker ++ b).take
      (s.length + fmtMarker.length + f.length) = s ++ fmtMarker ++ f := by
    have e : s ++ fmtMarker ++ f ++ brtMarker ++ b =
        (s ++ fmtMarker ++ f) ++ (brtMarker ++ b) := by
      simp [List.append_assoc]
    rw [e]
    exact List.take_left' (by simp [List.length_append, Nat.add_assoc])
  have dropA2 : (s ++ fmtMarker ++ f).drop (s.length + fmtMarker.length) = f := by
    have e : s ++ fmtMarker ++ f = (s ++ fmtMarker) ++ f := by
      simp [List.append_assoc]
    rw [e]
    exact List.drop_left' (by simp [List.length_append, Nat.add_assoc])
  have dropB : (s ++ brtMarker ++ b ++ fmtMarker ++ f).drop
      (s.length + brtMarker.length + b.length + fmtMarker.length) = f := by
    have e : s ++ brtMarker ++ b ++ fmtMarker ++ f =
        (s ++ brtMarker ++ b ++ fmtMarker) ++ f := by
      simp [List.append_assoc]
    rw [e]
    exact List.drop_left' (by simp [List.length_append, Nat.add_assoc])
  have takeSA : (s ++ fmtMarker ++ f ++ brtMarker ++ b).take s.length = s := by
    have e : s ++ fmtMarker ++ f ++ brtMarker ++ b =
        s ++ (fmtMarker ++ f ++ brtMarker ++ b) := by
      simp [List.append_assoc]
    rw [e]
    exact List.take_left' rfl
  have takeSB : (s ++ brtMarker ++ b ++ fmtMarker ++ f).take s.length = s := by
    have e : s ++ brtMarker ++ b ++ fmtMarker ++ f =
        s ++ (brtMarker ++ b ++ fmtMarker ++ f) := by
      simp [List.append_assoc]
    rw [e]
    exact List.take_left' rfl
  constructor
  · have fA := format_of_parse_some (s ++ fmtMarker ++ f ++ brtMarker ++ b)
      s.length f.length hA1 (by rw [dropA]; exact hA3)
    have fB := format_of_parse_noneB (s ++ brtMarker ++ b ++ fmtMarker ++ f)
      (s.length + brtMarker.length + b.length) hB1 (by rw [dropB]; exact hB3)
    rw [fA, fB, takeA, dropA2, dropB]
  · have sA := song_of_parse (s ++ fmtMarker ++ f ++ brtMarker ++ b)
      s.length (s.length + fmtMarker.length + f.length) hA1 hA2
    have sB := song_of_parse (s ++ brtMarker ++ b ++ fmtMarker ++ f)
      (s.length + brtMarker.length + b.length) s.length hB1 hB2
    have mA : min s.length (s.length + fmtMarker.length + f.length) = s.length := by
      omega
    have mB : min (s.length + brtMarker.length + b.length) s.length = s.length := by
      omega
    rw [sA, sB, mA, mB, takeSA, takeSB]

/-- Witness for C3 on a concrete swapped pair. -/
theorem c3_witness :
    (rustFind fmtMarker ("My Song ".toList ++ fmtMarker ++ " aac ".toList ++
        brtMarker ++ " 128".toList) = some ("My Song ".toList).length ∧
      rustFind brtMarker ("My Song ".toList ++ fmtMarker ++ " aac ".toList ++
        brtMarker ++ " 128".toList) =
        some (("My Song ".toList).length + fmtMarker.length +
          (" aac ".toList).length) ∧
      rustFind brtMarker (" aac ".toList ++ brtMarker ++ " 128".toList) =
        some (" aac ".toList).length ∧
      rustFind fmtMarker ("My Song ".toList ++ brtMarker ++ " 128".toList ++
        fmtMarker ++ " aac ".toList) =
        some (("My Song ".toList).length + brtMarker.length +
          (" 128".toList).length) ∧
      rustFind brtMarker ("My Song ".toList ++ brtMarker ++ " 128".toList ++
        fmtMarker ++ " aac ".toList) = some ("My Song ".toList).length ∧
      rustFind brtMarker " aac ".toList = none) ∧
    ((parseStatusFields ("My Song ".toList ++ fmtMarker ++ " aac ".toList ++
        brtMarker ++ " 128".toList)).format =
      (parseStatusFields ("My Song ".toList ++ brtMarker ++ " 128".toList ++
        fmtMarker ++ " aac ".toList)).format ∧
     (parseStatusFields ("My Song ".toList ++ fmtMarker ++ " aac ".toList ++
        brtMarker ++ " 128".toList)).song =
      (parseStatusFields ("My Song ".toList ++ brtMarker ++ " 128".toList ++
        fmtMarker ++ " aac ".toList)).song) :=
  ⟨⟨by decide, by decide, by decide, by decide, by decide, by decide⟩,
   c3_swapped_markers_format_song "My Song ".toList " aac ".toList " 128".toList
     (by decide) (by decide) (by decide) (by decide) (by decide) (by decide)⟩


/-- Counterexample for C1 as stated: with a session active (process 7) and
no crossfade in progress (the code has no crossfade state at all),
`play_station` kills the old process before it returns — the kill event
for process 7 is in the event list of the very call. -/
theorem c1_counterexample :
    ProcEvent.kill 7 ∈
      (Player.play_station
        { current_player := some 7, is_muted := false }
        "B".toList (Except.ok 8)
        (AudioState.new (fun _ => dummyDraw))).2.2.1 := by
  simp [Player.play_station, Player.stop]

/-- Claim C1 amended: a `play_station` call made while a session is
active kills the old decoder process synchronously, before spawning the
new one; after the call only the new process is current, and no deferred
termination is scheduled (the event list of the call is exactly the kill
followed by the spawn). -/
theorem c1_switch_kills_old_first (p : Player) (name : List Char)
    (oldPid newPid : Nat) (a : AudioState)
    (h : p.current_player = some oldPid) :
    (p.play_station name (Except.ok newPid) a).2.2.1 =
      [ProcEvent.kill oldPid, ProcEvent.spawn newPid] ∧
    (p.play_station name (Except.ok newPid) a).1.current_player =
      some newPid := by
  refine ⟨?_, ?_⟩ <;> simp [Player.play_station, Player.stop, h]

/-- Witness for the amended C1 at a concrete player. -/
theorem c1_witness :
    ({ current_player := some 7, is_muted := false } : Player).current_player
      = some 7 ∧
    ((Player.play_station { current_player := some 7, is_muted := false }
        "B".toList (Except.ok 8) (AudioState.new (fun _ => dummyDraw))).2.2.1 =
      [ProcEvent.kill 7, ProcEvent.spawn 8] ∧
     (Player.play_station { current_player := some 7, is_muted := false }
        "B".toList (Except.ok 8)
        (AudioState.new (fun _ => dummyDraw))).1.current_player = some 8) :=
  ⟨rfl, c1_switch_kills_old_first _ _ 7 8 _ rfl⟩

/-- Counterexample for C2 as stated: with a prior tuning sink (sink 0)
still held, `play_tuning_sound` never stops it — no stop event for sink 0
occurs anywhere in the call's event trace (in particular not before the
new sink starts playing). -/
theorem c2_counterexample :
    SinkEvent.stop 0 ∉
      (SoundEffectManager.play_tuning_sound
        { tuning_sink := some 0, audio_available := true,
          next_sink := 1 }).2.1 := by
  decide

/-- Claim C2 amended: `play_tuning_sound` does not stop a prior sink; it
creates and starts the new sink and only afterwards replaces (drops) the
stored reference to the prior one, which receives no stop event from this
call. -/
theorem c2_replace_without_stop (m : SoundEffectManager) (s0 : Nat)
    (hav : m.audio_available = true) (hs : m.tuning_sink = some s0) :
    (m.play_tuning_sound).2.1 =
      [SinkEvent.create m.next_sink, SinkEvent.play m.next_sink,
       SinkEvent.dropRef s0] ∧
    SinkEvent.stop s0 ∉ (m.play_tuning_sound).2.1 ∧
    (m.play_tuning_sound).1.tuning_sink = some m.next_sink := by
  refine ⟨?_, ?_, ?_⟩ <;>
    simp [SoundEffectManager.play_tuning_sound, hav, hs]

/-- Witness for the amended C2 at a concrete manager. -/
theorem c2_witness :
    ({ tuning_sink := some 0, audio_available := true, next_sink := 1 } :
        SoundEffectManager).audio_available = true ∧
    ({ tuning_sink := some 0, audio_available := true, next_sink := 1 } :
        SoundEffectManager).tuning_sink = some 0 ∧
    ((SoundEffectManager.play_tuning_sound
        { tuning_sink := some 0, audio_available := true,
          next_sink := 1 }).2.1 =
      [SinkEvent.create 1, SinkEvent.play 1, SinkEvent.dropRef 0] ∧
     SinkEvent.stop 0 ∉
      (SoundEffectManager.play_tuning_sound
        { tuning_sink := some 0, audio_available := true,
          next_sink := 1 }).2.1 ∧
     (SoundEffectManager.play_tuning_sound
        { tuning_sink := some 0, audio_available := true,
          next_sink := 1 }).1.tuning_sink = some 1) :=
  ⟨rfl, rfl, c2_replace_without_stop _ 0 rfl rfl⟩


lemma length_updateStarsFrom (upd : StarDraw → Star → Star)
    (draw : Nat → StarDraw) :
    ∀ (i : Nat) (l : List Star),
      (updateStarsFrom upd draw i l).length = l.length := by
  intro i l
  induction l generalizing i with
  | nil => simp [updateStarsFrom]
  | cons st rest ih => simp [updateStarsFrom, ih]

lemma getElem?_updateStarsFrom (upd : StarDraw → Star → Star)
    (draw : Nat → StarDraw) :
    ∀ (l : List Star) (i j : Nat),
      (updateStarsFrom upd draw i l)[j]? =
        (l[j]?).map (fun st => upd (draw (i + j)) st) := by
  intro l
  induction l with
  | nil => intro i j; simp [updateStarsFrom]
  | cons st rest ih =>
    intro i j
    cases j with
    | zero => simp [updateStarsFrom]
    | succ j =>
      simp only [updateStarsFrom, List.getElem?_cons_succ]
      rw [ih (i + 1) j]
      have e : i + 1 + j = i + (j + 1) := by omega
      rw [e]

lemma getElem?_ite_append (c : Prop) [Decidable c] (l : List Star) (x : Star)
    (i : Nat) (h : i < l.length) :
    (if c then l ++ [x] else l)[i]? = l[i]? := by
  split
  · exact List.getElem?_append_left h
  · rfl

/-- Claim C7: in a playing step, a star whose advanced depth
`z + speed·warp` exceeds 1 is recycled: afterwards its depth is exactly
`0.01` (hence strictly below `0.02`), and its `x`,`y` are the freshly
drawn coordinates for its index. -/
theorem c7_star_recycle (s : AudioState) (d : StepDraw) (i : Nat) (st : Star)
    (hp : s.is_playing = true)
    (hst : s.stars[i]? = some st)
    (hz : st.z + st.speed * (1 + (s.bass_impact * (9/10) +
        (if d.bassDrop = true then d.dropTarget else d.calmTarget) *
          (1/10)) * 2) > 1) :
    ∃ st' : Star, (update_visualization d s).stars[i]? = some st' ∧
      st'.z = 1/100 ∧ st'.z < 1/50 ∧
      st'.x = (d.starDraw i).x ∧ st'.y = (d.starDraw i).y := by
  have hlen : i < s.stars.length := (List.getElem?_eq_some.mp hst).1
  set t := (if d.bassDrop = true then d.dropTarget else d.calmTarget) with ht
  refine ⟨advance_star_playing
      (1 + (s.bass_impact * (9/10) + t * (1/10)) * 2) (d.starDraw i) st,
      ?_, ?_, ?_, ?_, ?_⟩
  · simp only [update_visualization, hp, if_true]
    rw [← ht]
    rw [getElem?_ite_append _ _ _ _
        (by rw [length_updateStarsFrom]; exact hlen)]
    rw [getElem?_updateStarsFrom]
    simp [hst]
  · simp only [advance_star_playing]
    rw [if_pos hz]
  · simp only [advance_star_playing]
    rw [if_pos hz]
    norm_num
  · simp only [advance_star_playing]
    rw [if_pos hz]
  · simp only [advance_star_playing]
    rw [if_pos hz]

/-- Witness for C7 at the concrete one-star playing state. -/
theorem c7_witness :
    demoPlayingState.is_playing = true ∧
    demoPlayingState.stars[0]? = some
      { x := 0, y := 0, z := 99/100, brightness := 1/2,
        speed := 1/100, color := 0 } ∧
    ((99:ℚ)/100 + (1/100) * (1 + ((0:ℚ) * (9/10) +
        (if dummyStep.bassDrop = true then dummyStep.dropTarget
         else dummyStep.calmTarget) * (1/10)) * 2) > 1) ∧
    (∃ st' : Star,
      (update_visualization dummyStep demoPlayingState).stars[0]? =
        some st' ∧
      st'.z = 1/100 ∧ st'.z < 1/50 ∧
      st'.x = (dummyStep.starDraw 0).x ∧
      st'.y = (dummyStep.starDraw 0).y) :=
  ⟨rfl, rfl, by norm_num [dummyStep],
   c7_star_recycle demoPlayingState dummyStep 0 _ rfl rfl
     (by norm_num [demoPlayingState, dummyStep])⟩


lemma stars_set_playing (b : Bool) (s : AudioState) :
    (set_playing b s).stars = s.stars := by
  simp [set_playing]

lemma update_stars_length_bounds (d : StepDraw) (s : AudioState)
    (h1 : 50 ≤ s.stars.length) (h2 : s.stars.length ≤ 250) :
    50 ≤ (update_visualization d s).stars.length ∧
      (update_visualization d s).stars.length ≤ 250 := by
  cases hp : s.is_playing
  · simp only [update_visualization, hp, Bool.false_eq_true, if_false]
    split
    · rename_i hcond
      rw [List.length_dropLast, length_updateStarsFrom]
      rw [length_updateStarsFrom] at hcond
      omega
    · rw [length_updateStarsFrom]
      omega
  · simp only [update_visualization, hp, if_true]
    set t := (if d.bassDrop = true then d.dropTarget else d.calmTarget) with ht
    split
    · rename_i hcond
      rw [List.length_append, length_updateStarsFrom]
      rw [length_updateStarsFrom] at hcond
      simp only [List.length_cons, List.length_nil]
      omega
    · rw [length_updateStarsFrom]
      omega

lemma runTicks_bounds : ∀ (l : List TickInput) (s : AudioState),
    50 ≤ s.stars.length → s.stars.length ≤ 250 →
    50 ≤ (runTicks l s).stars.length ∧ (runTicks l s).stars.length ≤ 250 := by
  intro l
  induction l with
  | nil => intro s h1 h2; simpa [runTicks] using ⟨h1, h2⟩
  | cons t rest ih =>
    intro s h1 h2
    have hstep := update_stars_length_bounds t.draw (set_playing t.playing s)
      (by rw [stars_set_playing]; exact h1)
      (by rw [stars_set_playing]; exact h2)
    have hr : runTicks (t :: rest) s =
        runTicks rest (update_visualization t.draw (set_playing t.playing s)) := by
      simp [runTicks]
    rw [hr]
    exact ih _ hstep.1 hstep.2

/-- Claim C8: from the fresh 200-star state, under any sequence of
main-loop ticks (each tick may set `is_playing` and then runs one
`update_visualization` step), the star count stays in `[50, 250]`: a star
is appended only below the 250 cap and removed only above the 50 floor. -/
theorem c8_star_count_bounds (draw : Nat → StarDraw) (ticks : List TickInput) :
    50 ≤ (runTicks ticks (AudioState.new draw)).stars.length ∧
    (runTicks ticks (AudioState.new draw)).stars.length ≤ 250 := by
  have h200 : (AudioState.new draw).stars.length = 200 := by
    simp [AudioState.new]
  exact runTicks_bounds ticks _ (by omega) (by omega)

lemma update_paused_fields (d : StepDraw) (s : AudioState)
    (h : s.is_playing = false) :
    (update_visualization d s).warp_speed =
      (s.warp_speed - 1/2) * (19/20) + 1/2 ∧
    (update_visualization d s).bass_impact = s.bass_impact * (19/20) ∧
    (update_visualization d s).is_playing = false := by
  refine ⟨?_, ?_, ?_⟩ <;>
    simp [update_visualization, h]

lemma runIdle_closed : ∀ (ds : List StepDraw) (s : AudioState),
    s.is_playing = false →
    (runIdle ds s).warp_speed =
      (s.warp_speed - 1/2) * (19/20)^ds.length + 1/2 ∧
    (runIdle ds s).bass_impact = s.bass_impact * (19/20)^ds.length := by
  intro ds
  induction ds with
  | nil => intro s h; simp [runIdle]
  | cons d rest ih =>
    intro s h
    have hu := update_paused_fields d s h
    have hr : runIdle (d :: rest) s = runIdle rest (update_visualization d s) := by
      simp [runIdle]
    rw [hr]
    obtain ⟨h1, h2⟩ := ih _ hu.2.2
    rw [h1, h2, hu.1, hu.2.1]
    constructor
    · simp only [List.length_cons, pow_succ]
      ring
    · simp only [List.length_cons, pow_succ]
      ring

/-- Claim C9: while paused, one step maps `warp_speed` `w` to
`(w−0.5)·0.95+0.5` and multiplies `bass_impact` by `0.95`; over any run of
paused steps the two fields follow the exact geometric closed forms, so
`warp_speed` approaches 0.5 monotonically from its starting side without
crossing it, and a non-negative `bass_impact` decays monotonically toward
0.  (Monotonicity along the run follows by applying the bounds to each
suffix of the run, every intermediate state being paused as well.) -/
theorem c9_idle_decay (ds : List StepDraw) (d : StepDraw) (s : AudioState)
    (h : s.is_playing = false) :
    (update_visualization d s).warp_speed =
      (s.warp_speed - 1/2) * (19/20) + 1/2 ∧
    (update_visualization d s).bass_impact = s.bass_impact * (19/20) ∧
    (runIdle ds s).warp_speed =
      (s.warp_speed - 1/2) * (19/20)^ds.length + 1/2 ∧
    (runIdle ds s).bass_impact = s.bass_impact * (19/20)^ds.length ∧
    (1/2 ≤ s.warp_speed →
      1/2 ≤ (runIdle ds s).warp_speed ∧
      (runIdle ds s).warp_speed ≤ s.warp_speed) ∧
    (s.warp_speed ≤ 1/2 →
      (runIdle ds s).warp_speed ≤ 1/2 ∧
      s.warp_speed ≤ (runIdle ds s).warp_speed) ∧
    (0 ≤ s.bass_impact →
      0 ≤ (runIdle ds s).bass_impact ∧
      (runIdle ds s).bass_impact ≤ s.bass_impact) := by
  obtain ⟨hw, hb⟩ := runIdle_closed ds s h
  have hu := update_paused_fields d s h
  have hq0 : (0:ℚ) ≤ (19/20)^ds.length := by positivity
  have hq1 : ((19:ℚ)/20)^ds.length ≤ 1 :=
    pow_le_one₀ (by norm_num) (by norm_num)
  refine ⟨hu.1, hu.2.1, hw, hb, ?_, ?_, ?_⟩
  · intro hge
    have hnn : (0:ℚ) ≤ s.warp_speed - 1/2 := by linarith
    constructor
    · rw [hw]; nlinarith
    · rw [hw]; nlinarith
  · intro hle
    have hnp : s.warp_speed - 1/2 ≤ 0 := by linarith
    constructor
    · rw [hw]; nlinarith
    · rw [hw]; nlinarith
  · intro hbn
    constructor
    · rw [hb]; positivity
    · rw [hb]; nlinarith

/-- Witness for C9 at the fresh state (paused, `warp_speed = 1`,
`bass_impact = 0`) and a two-step idle run. -/
theorem c9_witness :
    initState.is_playing = false ∧
    ((update_visualization dummyStep initState).warp_speed =
      (initState.warp_speed - 1/2) * (19/20) + 1/2 ∧
    (update_visualization dummyStep initState).bass_impact =
      initState.bass_impact * (19/20) ∧
    (runIdle [dummyStep, dummyStep] initState).warp_speed =
      (initState.warp_speed - 1/2) *
        (19/20)^([dummyStep, dummyStep] : List StepDraw).length + 1/2 ∧
    (runIdle [dummyStep, dummyStep] initState).bass_impact =
      initState.bass_impact *
        (19/20)^([dummyStep, dummyStep] : List StepDraw).length ∧
    (1/2 ≤ initState.warp_speed →
      1/2 ≤ (runIdle [dummyStep, dummyStep] initState).warp_speed ∧
      (runIdle [dummyStep, dummyStep] initState).warp_speed ≤
        initState.warp_speed) ∧
    (initState.warp_speed ≤ 1/2 →
      (runIdle [dummyStep, dummyStep] initState).warp_speed ≤ 1/2 ∧
      initState.warp_speed ≤
        (runIdle [dummyStep, dummyStep] initState).warp_speed) ∧
    (0 ≤ initState.bass_impact →
      0 ≤ (runIdle [dummyStep, dummyStep] initState).bass_impact ∧
      (runIdle [dummyStep, dummyStep] initState).bass_impact ≤
        initState.bass_impact)) :=
  ⟨rfl, c9_idle_decay [dummyStep, dummyStep] dummyStep initState rfl⟩


end Radio
